import Mathlib

/-!
Shallow embedding of `src/deploy.py` (QiTlalli GCP Deployment Manager).

External collaborators (the secret store, the build service, the HTTP
client, the credential provider) are modelled as oracles passed in as
function arguments; each operation returns, besides its Python return
value, a trace of the provider calls it issued.
-/

namespace Qitlalli

/-- Configuration record mirroring the `GCPConfig` dataclass, with the
same default field values. -/
structure GCPConfig where
  project_id : String
  region : String := "us-central1"
  service_name : String := "qitlalli-odoo"
  db_instance_name : String := "qitlalli-db"
  service_account : String := "qitlalli-service-account"
deriving DecidableEq

/-- Python `string.ascii_lowercase`. -/
def ascii_lowercase : List Char := "abcdefghijklmnopqrstuvwxyz".toList

/-- Python `string.ascii_uppercase`. -/
def ascii_uppercase : List Char := "ABCDEFGHIJKLMNOPQRSTUVWXYZ".toList

/-- Python `string.ascii_letters` (lowercase then uppercase). -/
def ascii_letters : List Char := ascii_lowercase ++ ascii_uppercase

/-- Python `string.digits`. -/
def ascii_digits : List Char := "0123456789".toList

/-- The alphabet used by `_generate_password`:
`string.ascii_letters + string.digits + "!@#$%^&*"`. -/
def alphabet : List Char := ascii_letters ++ ascii_digits ++ "!@#$%^&*".toList

/-- Model of `GCPDeploymentManager._generate_password`: builds a string of
`len` characters, the i-th obtained by one call `secrets.choice(alphabet)`,
modelled by the random source `rng` giving the index chosen at the i-th
draw. -/
def generate_password (len : Nat) (rng : Nat → Fin alphabet.length) : String :=
  ⟨(List.range len).map fun i => alphabet.get (rng i)⟩

/-- The `secrets_config` dict literal built at the top of `create_secrets`,
in insertion order.  The three generated passwords consume successive draws
of the one random source (32, then 24, then 64 draws). -/
def secrets_config (rng : Nat → Fin alphabet.length) : List (String × String) :=
  [("qitlalli-db-password", generate_password 32 rng),
   ("qitlalli-admin-password", generate_password 24 fun i => rng (32 + i)),
   ("qitlalli-jwt-secret", generate_password 64 fun i => rng (56 + i)),
   ("qitlalli-email-password", "PLACEHOLDER-UPDATE-MANUALLY"),
   ("qitlalli-whatsapp-token", "PLACEHOLDER-UPDATE-MANUALLY")]

/-- Provider calls issued by `create_secrets`.  A call is determined by the
project id, the secret id and (for a version add) the payload data; the
resource paths `projects/p` and `projects/p/secrets/s` of the Python
requests are represented by their components.  Log lines that the claims
mention are recorded as events too. -/
inductive SecretEvent where
  | getSecret (project_id secret_id : String)
  | createSecret (project_id secret_id : String)
  | addSecretVersion (project_id secret_id data : String)
  | logExists (secret_id : String)
  | logCreated (secret_id : String)
  | logError (secret_id : String)
deriving DecidableEq

/-- The secret id an event is about. -/
def SecretEvent.secretId : SecretEvent → String
  | .getSecret _ s => s
  | .createSecret _ s => s
  | .addSecretVersion _ s _ => s
  | .logExists s => s
  | .logCreated s => s
  | .logError s => s

/-- Whether an event mutates the secret store. -/
def SecretEvent.isMutation : SecretEvent → Bool
  | .createSecret _ _ => true
  | .addSecretVersion _ _ _ => true
  | _ => false

/-- Whether an event is an existence check (`get_secret`). -/
def SecretEvent.isGet : SecretEvent → Bool
  | .getSecret _ _ => true
  | _ => false

/-- The mutation events of a trace that touch the named secret. -/
def mutations_for (name : String) (t : List SecretEvent) : List SecretEvent :=
  t.filter fun e => e.isMutation && e.secretId == name

/-- Oracle for the secret store: whether `get_secret` returns without
raising (the secret exists), whether `create_secret` succeeds, and whether
`add_secret_version` succeeds, per secret name. -/
structure SecretStoreOracle where
  getOk : String → Bool
  createOk : String → Bool
  addOk : String → Bool

/-- One iteration of the loop in `create_secrets` for the pair
`(name, value)`: the inner try checks existence (a bare except sends any
failure to the creation branch); the outer try catches a failing
`create_secret` or `add_secret_version` and logs the error, so the
iteration always returns.  Returns the trace of provider calls and the
entry added to `created_secrets` (if any). -/
def process_secret (pid : String) (o : SecretStoreOracle) (name value : String) :
    List SecretEvent × Option (String × String) :=
  if o.getOk name then
    ([.getSecret pid name, .logExists name], none)
  else if o.createOk name then
    if o.addOk name then
      ([.getSecret pid name, .createSecret pid name,
        .addSecretVersion pid name value, .logCreated name],
       some (name, value))
    else
      ([.getSecret pid name, .createSecret pid name, .logError name], none)
  else
    ([.getSecret pid name, .logError name], none)

/-- The `for secret_name, secret_value in secrets_config.items()` loop:
iterations run in insertion order and each one is wrapped in the
error-catching `process_secret`, so the loop itself never raises. -/
def run_secret_loop (pid : String) (o : SecretStoreOracle) :
    List (String × String) → List SecretEvent × List (String × String)
  | [] => ([], [])
  | p :: rest =>
      let r := process_secret pid o p.1 p.2
      let rr := run_secret_loop pid o rest
      (r.1 ++ rr.1, r.2.toList ++ rr.2)

/-- Model of `GCPDeploymentManager.create_secrets`: returns the trace of
provider calls and the `created_secrets` mapping (as an association list in
insertion order). -/
def create_secrets (cfg : GCPConfig) (o : SecretStoreOracle)
    (rng : Nat → Fin alphabet.length) :
    List SecretEvent × List (String × String) :=
  run_secret_loop cfg.project_id o (secrets_config rng)

/-- An HTTP response as far as the script inspects it. -/
structure HttpResponse where
  status_code : Nat
deriving DecidableEq

/-- The `timeout=30` argument of the health-check GET request. -/
def health_check_timeout : Nat := 30

/-- Model of `GCPDeploymentManager.run_health_check`: one GET request to
`service_url + "/web/health"` with a bounded timeout; `http` returns
`none` on a transport error (the raised exception is caught and logged).
Returns the boolean result and the list of `(url, timeout)` requests
issued. -/
def run_health_check (http : String → Option HttpResponse) (service_url : String) :
    Bool × List (String × Nat) :=
  match http (service_url ++ "/web/health") with
  | some r => (r.status_code == 200, [(service_url ++ "/web/health", health_check_timeout)])
  | none => (false, [(service_url ++ "/web/health", health_check_timeout)])

/-- Model of `GCPDeploymentManager.get_service_url`: computes (never
queries) the conventional URL from the service name and project id. -/
def get_service_url (cfg : GCPConfig) : Option String :=
  some ("https://" ++ cfg.service_name ++ "-" ++ cfg.project_id ++ ".run.app")

/-- The image tag `gcr.io/{project_id}/{service_name}:latest` used by
`build_and_deploy`. -/
def image_tag (cfg : GCPConfig) : String :=
  "gcr.io/" ++ cfg.project_id ++ "/" ++ cfg.service_name ++ ":latest"

/-- The build request submitted by `build_and_deploy`: a list of
`(builder image, args)` steps and the list of result images. -/
structure BuildConfig where
  steps : List (String × List String)
  images : List String
deriving DecidableEq

/-- The `build_config` dict built inside `build_and_deploy`. -/
def build_config (cfg : GCPConfig) : BuildConfig :=
  { steps := [("gcr.io/cloud-builders/docker",
               ["build", "-f", "gcp/Dockerfile", "-t", image_tag cfg, "."]),
              ("gcr.io/cloud-builders/docker", ["push", image_tag cfg])],
    images := [image_tag cfg] }

/-- The three values accepted by the `--action` flag. -/
inductive Action where
  | setup
  | deploy
  | secretsAction
deriving DecidableEq

/-- The parsed command line. -/
structure ParsedArgs where
  project_id : String
  region : String
  action : Action
deriving DecidableEq

/-- Model of the `argparse` configuration in `main`: `--project-id` is
required; `--region` defaults to `us-central1`; `--action` is restricted
to the choices setup, deploy, secrets and defaults to deploy.  Each flag is
given as `none` (absent) or `some value`; `none` as the overall result is
a parser rejection (argparse errors out). -/
def parse_args (project_id? region? action? : Option String) : Option ParsedArgs :=
  match project_id? with
  | none => none
  | some pid =>
    let region := region?.getD "us-central1"
    match action? with
    | none => some ⟨pid, region, Action.deploy⟩
    | some a =>
      if a = "setup" then some ⟨pid, region, Action.setup⟩
      else if a = "deploy" then some ⟨pid, region, Action.deploy⟩
      else if a = "secrets" then some ⟨pid, region, Action.secretsAction⟩
      else none

/-- Oracle for the steps `main` sequences: the result of the
authentication check, of `setup_service_account`, of the build submission,
and the HTTP client used by the health check. -/
structure WorldOracle where
  authOk : Bool
  svcAccountOk : Bool
  buildOk : Bool
  http : String → Option HttpResponse

/-- The observable steps `main` performs, in order. -/
inductive Step where
  | authCheckStep
  | svcAccountStep
  | createSecretsStep
  | buildStep
  | getUrlStep
  | healthCheckStep (url : String)
  | warnHealthFailed
deriving DecidableEq

/-- Model of `main` after argument parsing: the authentication check runs
first and a failure exits with status 1 before anything else; inside the
try block a failing `setup_service_account` or `build_and_deploy` raises,
is caught by the outer except and exits with status 1; a failing health
check only logs a warning; falling off the end of `main` exits with
status 0.  Returns `(exit code, trace of steps)`. -/
def run_main (cfg : GCPConfig) (act : Action) (w : WorldOracle) : Nat × List Step :=
  if w.authOk then
    match act with
    | Action.setup =>
        if w.svcAccountOk then
          (0, [Step.authCheckStep, Step.svcAccountStep, Step.createSecretsStep])
        else (1, [Step.authCheckStep, Step.svcAccountStep])
    | Action.secretsAction =>
        (0, [Step.authCheckStep, Step.createSecretsStep])
    | Action.deploy =>
        if w.buildOk then
          match get_service_url cfg with
          | some url =>
              if (run_health_check w.http url).1 then
                (0, [Step.authCheckStep, Step.buildStep, Step.getUrlStep,
                     Step.healthCheckStep url])
              else
                (0, [Step.authCheckStep, Step.buildStep, Step.getUrlStep,
                     Step.healthCheckStep url, Step.warnHealthFailed])
          | none => (0, [Step.authCheckStep, Step.buildStep, Step.getUrlStep])
        else (1, [Step.authCheckStep, Step.buildStep])
  else (1, [Step.authCheckStep])

/-- A fixed config used by concrete witnesses. -/
def demoConfig : GCPConfig :=
  ⟨"demo-project", "us-central1", "qitlalli-odoo", "qitlalli-db",
   "qitlalli-service-account"⟩

/-- The same config with a different region only. -/
def demoConfigB : GCPConfig :=
  ⟨"demo-project", "europe-west1", "qitlalli-odoo", "qitlalli-db",
   "qitlalli-service-account"⟩

/-- A fixed random source used by concrete witnesses. -/
def demoRng : Nat → Fin alphabet.length := fun _ => ⟨0, by decide⟩

/-- A secret-store oracle where no secret exists and every call succeeds. -/
def oracleAllAbsent : SecretStoreOracle :=
  ⟨fun _ => false, fun _ => true, fun _ => true⟩

/-- A secret-store oracle where no secret exists and every creation
fails. -/
def oracleAllFail : SecretStoreOracle :=
  ⟨fun _ => false, fun _ => false, fun _ => false⟩

lemma length_generate_password (n : Nat) (rng : Nat → Fin alphabet.length) :
    (generate_password n rng).length = n := by
  simp [generate_password, String.length]

lemma all_alphabet_generate_password (n : Nat) (rng : Nat → Fin alphabet.length) :
    (generate_password n rng).toList.all (fun c => alphabet.contains c) = true := by
  rw [List.all_eq_true]
  intro c hc
  simp only [generate_password, String.toList, List.mem_map, List.mem_range] at hc
  obtain ⟨i, _, rfl⟩ := hc
  exact List.elem_eq_true_of_mem (List.get_mem alphabet _ _)

lemma generate_password_ne_empty (n : Nat) (rng : Nat → Fin alphabet.length)
    (h : 0 < n) : generate_password n rng ≠ "" := by
  intro he
  have := length_generate_password n rng
  rw [he] at this
  simp [String.length] at this
  omega

/-- C2: for every requested length, the generated password has exactly that
length and draws only from the alphabet of upper/lower ASCII letters,
digits, and the punctuation `!@#$%^&*`; within `create_secrets` the
database password is generated with length 32 and the JWT secret with
length 64. -/
theorem generate_password_spec (n : Nat) (rng : Nat → Fin alphabet.length) :
    (generate_password n rng).length = n
    ∧ (generate_password n rng).toList.all (fun c => alphabet.contains c) = true
    ∧ ((secrets_config rng)[0]?).map (fun p => (p.1, p.2.length))
        = some ("qitlalli-db-password", 32)
    ∧ ((secrets_config rng)[2]?).map (fun p => (p.1, p.2.length))
        = some ("qitlalli-jwt-secret", 64) := by
  refine ⟨length_generate_password n rng, all_alphabet_generate_password n rng, ?_, ?_⟩
  · simp [secrets_config, length_generate_password]
  · simp [secrets_config, length_generate_password]

/-- C3: `run_health_check` issues exactly one GET request, to
`url ++ "/web/health"` with the bounded timeout, and returns true if and
only if the response arrives and has status 200; any other status or a
transport error yields false. -/
theorem run_health_check_spec (http : String → Option HttpResponse) (url : String) :
    (run_health_check http url).2 = [(url ++ "/web/health", health_check_timeout)]
    ∧ ((run_health_check http url).1 = true ↔
        ∃ r, http (url ++ "/web/health") = some r ∧ r.status_code = 200) := by
  cases h : http (url ++ "/web/health") with
  | none => simp [run_health_check, h]
  | some r => simp [run_health_check, h]

/-- C3 witness: at a concrete HTTP client answering 200, the health check
returns true; the iff is instantiated at that client. -/
theorem run_health_check_spec_witness :
    (run_health_check (fun _ => some ⟨200⟩) "https://x").1 = true :=
  (run_health_check_spec (fun _ => some ⟨200⟩) "https://x").2.mpr ⟨⟨200⟩, rfl, rfl⟩

/-- C5: whenever the authentication check fails, `main` exits with status
1 and the trace holds no other step: no secret creation, service-account
setup, build submission or health check happens. -/
theorem auth_failure_exits_first (cfg : GCPConfig) (act : Action) (w : WorldOracle)
    (h : w.authOk = false) :
    run_main cfg act w = (1, [Step.authCheckStep]) := by
  simp [run_main, h]

/-- C5 witness: a concrete run with failing authentication. -/
theorem auth_failure_exits_first_witness :
    run_main demoConfig Action.deploy ⟨false, true, true, fun _ => none⟩
      = (1, [Step.authCheckStep]) :=
  auth_failure_exits_first demoConfig Action.deploy ⟨false, true, true, fun _ => none⟩ rfl

/-- C6: on the deploy action, a failing build submission makes `main` exit
with status 1, with neither the service-URL computation nor the health
check attempted. -/
theorem deploy_build_failure_no_health (cfg : GCPConfig) (w : WorldOracle)
    (hauth : w.authOk = true) (hbuild : w.buildOk = false) :
    run_main cfg Action.deploy w = (1, [Step.authCheckStep, Step.buildStep]) := by
  simp [run_main, hauth, hbuild]

/-- C6 witness: a concrete deploy run with a failing build. -/
theorem deploy_build_failure_no_health_witness :
    run_main demoConfig Action.deploy ⟨true, true, false, fun _ => none⟩
      = (1, [Step.authCheckStep, Step.buildStep]) :=
  deploy_build_failure_no_health demoConfig ⟨true, true, false, fun _ => none⟩ rfl rfl

/-- C7: on the deploy action, when the build succeeds but the health check
returns false, `main` only logs a warning and exits with status 0; the
trace shows no rollback or any further action after the warning. -/
theorem deploy_health_warning_exit_zero (cfg : GCPConfig) (w : WorldOracle)
    (hauth : w.authOk = true) (hbuild : w.buildOk = true) (url : String)
    (hurl : get_service_url cfg = some url)
    (hhc : (run_health_check w.http url).1 = false) :
    run_main cfg Action.deploy w
      = (0, [Step.authCheckStep, Step.buildStep, Step.getUrlStep,
             Step.healthCheckStep url, Step.warnHealthFailed]) := by
  simp [run_main, hauth, hbuild, hurl, hhc]

/-- C7 witness: a concrete deploy run whose health check fails on a
transport error still exits with status 0 and a warning. -/
theorem deploy_health_warning_exit_zero_witness :
    run_main demoConfig Action.deploy ⟨true, true, true, fun _ => none⟩
      = (0, [Step.authCheckStep, Step.buildStep, Step.getUrlStep,
             Step.healthCheckStep "https://qitlalli-odoo-demo-project.run.app",
             Step.warnHealthFailed]) :=
  deploy_health_warning_exit_zero demoConfig ⟨true, true, true, fun _ => none⟩ rfl rfl
    "https://qitlalli-odoo-demo-project.run.app" rfl rfl

/-- C9: `get_service_url` is a pure function of the project id and the
service name: two configs agreeing on those two fields get the same URL,
whatever their other fields. -/
theorem get_service_url_pure (c c' : GCPConfig)
    (hp : c.project_id = c'.project_id) (hs : c.service_name = c'.service_name) :
    get_service_url c = get_service_url c' := by
  simp [get_service_url, hp, hs]

/-- C9 witness: two concrete configs differing in the region get the same
URL. -/
theorem get_service_url_pure_witness :
    get_service_url demoConfig = get_service_url demoConfigB :=
  get_service_url_pure demoConfig demoConfigB rfl rfl

/-- C8 counterexample: an invocation that omits the `--action` flag is not
rejected; it parses successfully to the default deploy action, refuting
the claim that the action selector is required. -/
theorem action_flag_omitted_accepted :
    parse_args (some "demo-project") none none
      = some ⟨"demo-project", "us-central1", Action.deploy⟩ := rfl

/-- C8 amended: the entry point requires the project identifier, takes an
optional region defaulting to us-central1, and an optional action selector
restricted to exactly setup, deploy and secrets, defaulting to deploy; any
other action value, or a missing project identifier, is rejected. -/
theorem parse_args_spec (pid : String) (region? : Option String) :
    (∀ a?, parse_args none region? a? = none)
    ∧ parse_args (some pid) region? none
        = some ⟨pid, region?.getD "us-central1", Action.deploy⟩
    ∧ parse_args (some pid) region? (some "setup")
        = some ⟨pid, region?.getD "us-central1", Action.setup⟩
    ∧ parse_args (some pid) region? (some "deploy")
        = some ⟨pid, region?.getD "us-central1", Action.deploy⟩
    ∧ parse_args (some pid) region? (some "secrets")
        = some ⟨pid, region?.getD "us-central1", Action.secretsAction⟩
    ∧ (∀ s, s ≠ "setup" → s ≠ "deploy" → s ≠ "secrets" →
        parse_args (some pid) region? (some s) = none) := by
  refine ⟨fun a? => rfl, rfl, rfl, rfl, rfl, fun s h1 h2 h3 => ?_⟩
  simp [parse_args, h1, h2, h3]

/-- C8 amended witness: a concrete unknown action value is rejected. -/
theorem parse_args_spec_witness :
    parse_args (some "demo-project") none (some "destroy") = none :=
  (parse_args_spec "demo-project" none).2.2.2.2.2 "destroy"
    (by decide) (by decide) (by decide)

lemma process_secret_secretId (pid : String) (o : SecretStoreOracle) (name value : String) :
    ∀ e ∈ (process_secret pid o name value).1, e.secretId = name := by
  intro e he
  by_cases hg : o.getOk name
  · simp [process_secret, hg] at he
    rcases he with rfl | rfl <;> rfl
  · by_cases hcr : o.createOk name
    · by_cases ha : o.addOk name
      · simp [process_secret, hg, hcr, ha] at he
        rcases he with rfl | rfl | rfl | rfl <;> rfl
      · simp [process_secret, hg, hcr, ha] at he
        rcases he with rfl | rfl | rfl <;> rfl
    · simp [process_secret, hg, hcr] at he
      rcases he with rfl | rfl <;> rfl

lemma mutations_for_append (name : String) (s t : List SecretEvent) :
    mutations_for name (s ++ t) = mutations_for name s ++ mutations_for name t := by
  simp [mutations_for]

lemma mutations_for_of_ne (name m : String) (h : m ≠ name) (t : List SecretEvent)
    (ht : ∀ e ∈ t, e.secretId = m) : mutations_for name t = [] := by
  rw [mutations_for, List.filter_eq_nil_iff]
  intro e he
  simp [ht e he, h]

lemma run_secret_loop_trace_cons (pid : String) (o : SecretStoreOracle)
    (p : String × String) (rest : List (String × String)) :
    (run_secret_loop pid o (p :: rest)).1
      = (process_secret pid o p.1 p.2).1 ++ (run_secret_loop pid o rest).1 := rfl

lemma mutations_for_loop_nil (pid : String) (o : SecretStoreOracle) (name : String)
    (l : List (String × String)) (h : ∀ q ∈ l, q.1 ≠ name) :
    mutations_for name (run_secret_loop pid o l).1 = [] := by
  induction l with
  | nil => rfl
  | cons q rest ih =>
      rw [run_secret_loop_trace_cons, mutations_for_append]
      rw [mutations_for_of_ne name q.1 (h q (by simp)) _ (process_secret_secretId pid o q.1 q.2)]
      rw [ih fun r hr => h r (by simp [hr])]
      rfl

lemma mutations_for_loop_of_nodup (pid : String) (o : SecretStoreOracle)
    (l : List (String × String)) (hnd : (l.map Prod.fst).Nodup)
    (p : String × String) (hp : p ∈ l) :
    mutations_for p.1 (run_secret_loop pid o l).1
      = mutations_for p.1 (process_secret pid o p.1 p.2).1 := by
  induction l with
  | nil => cases hp
  | cons q rest ih =>
      rw [run_secret_loop_trace_cons, mutations_for_append]
      rcases List.mem_cons.mp hp with heq | hp2
      · subst heq
        have hrest : ∀ r ∈ rest, r.1 ≠ p.1 := by
          intro r hr hne
          exact (List.nodup_cons.mp hnd).1 (hne ▸ List.mem_map_of_mem Prod.fst hr)
        rw [mutations_for_loop_nil pid o p.1 rest hrest, List.append_nil]
      · have hq : q.1 ≠ p.1 := by
          intro hne
          exact (List.nodup_cons.mp hnd).1 (hne ▸ List.mem_map_of_mem Prod.fst hp2)
        rw [mutations_for_of_ne p.1 q.1 hq _ (process_secret_secretId pid o q.1 q.2),
            List.nil_append]
        exact ih (List.nodup_cons.mp hnd).2 hp2

lemma mem_run_secret_loop_of_mem (pid : String) (o : SecretStoreOracle)
    (l : List (String × String)) (p : String × String) (hp : p ∈ l)
    (e : SecretEvent) (he : e ∈ (process_secret pid o p.1 p.2).1) :
    e ∈ (run_secret_loop pid o l).1 := by
  induction l with
  | nil => cases hp
  | cons q rest ih =>
      rw [run_secret_loop_trace_cons, List.mem_append]
      rcases List.mem_cons.mp hp with heq | hp2
      · exact Or.inl (heq ▸ he)
      · exact Or.inr (ih hp2)

lemma logExists_mem_process (pid : String) (o : SecretStoreOracle) (name value : String)
    (hg : o.getOk name = true) :
    SecretEvent.logExists name ∈ (process_secret pid o name value).1 := by
  simp [process_secret, hg]

lemma mutations_for_process_exists (pid : String) (o : SecretStoreOracle)
    (name value : String) (hg : o.getOk name = true) :
    mutations_for name (process_secret pid o name value).1 = [] := by
  simp [process_secret, hg, mutations_for, SecretEvent.isMutation]

lemma mutations_for_process_absent (pid : String) (o : SecretStoreOracle)
    (name value : String) (hg : o.getOk name = false)
    (hcr : o.createOk name = true) (ha : o.addOk name = true) :
    mutations_for name (process_secret pid o name value).1
      = [SecretEvent.createSecret pid name, SecretEvent.addSecretVersion pid name value] := by
  simp [process_secret, hg, hcr, ha, mutations_for, SecretEvent.isMutation,
    SecretEvent.secretId]

lemma run_secret_loop_created (pid : String) (o : SecretStoreOracle)
    (hc : ∀ n, o.createOk n = true) (ha : ∀ n, o.addOk n = true)
    (l : List (String × String)) :
    (run_secret_loop pid o l).2 = l.filter fun p => !o.getOk p.1 := by
  induction l with
  | nil => rfl
  | cons p rest ih =>
      by_cases hg : o.getOk p.1
      · simp [run_secret_loop, process_secret, hg, ih, List.filter_cons]
      · simp [run_secret_loop, process_secret, hg, hc p.1, ha p.1, ih, List.filter_cons]

lemma secrets_config_names (rng : Nat → Fin alphabet.length) :
    (secrets_config rng).map Prod.fst
      = ["qitlalli-db-password", "qitlalli-admin-password", "qitlalli-jwt-secret",
         "qitlalli-email-password", "qitlalli-whatsapp-token"] := rfl

lemma secrets_config_names_nodup (rng : Nat → Fin alphabet.length) :
    ((secrets_config rng).map Prod.fst).Nodup := by
  rw [secrets_config_names]
  decide

lemma secrets_config_value_ne_empty (rng : Nat → Fin alphabet.length) :
    ∀ p ∈ secrets_config rng, p.2 ≠ "" := by
  intro p hp
  simp only [secrets_config, List.mem_cons, List.not_mem_nil, or_false] at hp
  rcases hp with rfl | rfl | rfl | rfl | rfl
  · exact generate_password_ne_empty 32 rng (by omega)
  · exact generate_password_ne_empty 24 (fun i => rng (32 + i)) (by omega)
  · exact generate_password_ne_empty 64 (fun i => rng (56 + i)) (by omega)
  · decide
  · decide

/-- C1: under a secret store that accepts all mutations, `create_secrets`
treats each of the five required secrets in one of two ways: a secret the
existence check finds is logged as already existing and no mutation
touches it, and it is absent from the returned mapping; an absent secret
gets exactly one `create_secret` call and exactly one added version whose
payload is non-empty.  The returned mapping is exactly the list of secrets
newly created this run, so when none of the five exist it has size 5. -/
theorem create_secrets_creates_or_skips (cfg : GCPConfig) (o : SecretStoreOracle)
    (rng : Nat → Fin alphabet.length)
    (hc : ∀ n, o.createOk n = true) (ha : ∀ n, o.addOk n = true) :
    (create_secrets cfg o rng).2 = (secrets_config rng).filter (fun p => !o.getOk p.1)
    ∧ (∀ p ∈ secrets_config rng,
        (o.getOk p.1 = true →
          SecretEvent.logExists p.1 ∈ (create_secrets cfg o rng).1
          ∧ mutations_for p.1 (create_secrets cfg o rng).1 = [])
        ∧ (o.getOk p.1 = false →
          mutations_for p.1 (create_secrets cfg o rng).1
            = [SecretEvent.createSecret cfg.project_id p.1,
               SecretEvent.addSecretVersion cfg.project_id p.1 p.2]
          ∧ p.2 ≠ ""))
    ∧ ((∀ p ∈ secrets_config rng, o.getOk p.1 = false) →
        (create_secrets cfg o rng).2.length = 5
        ∧ (create_secrets cfg o rng).2.map Prod.fst = (secrets_config rng).map Prod.fst) := by
  have hA : (create_secrets cfg o rng).2
      = (secrets_config rng).filter (fun p => !o.getOk p.1) :=
    run_secret_loop_created cfg.project_id o hc ha (secrets_config rng)
  refine ⟨hA, ?_, ?_⟩
  · intro p hp
    constructor
    · intro hg
      refine ⟨mem_run_secret_loop_of_mem cfg.project_id o (secrets_config rng) p hp _
          (logExists_mem_process cfg.project_id o p.1 p.2 hg), ?_⟩
      rw [show (create_secrets cfg o rng).1
            = (run_secret_loop cfg.project_id o (secrets_config rng)).1 from rfl,
          mutations_for_loop_of_nodup cfg.project_id o (secrets_config rng)
            (secrets_config_names_nodup rng) p hp,
          mutations_for_process_exists cfg.project_id o p.1 p.2 hg]
    · intro hg
      refine ⟨?_, secrets_config_value_ne_empty rng p hp⟩
      rw [show (create_secrets cfg o rng).1
            = (run_secret_loop cfg.project_id o (secrets_config rng)).1 from rfl,
          mutations_for_loop_of_nodup cfg.project_id o (secrets_config rng)
            (secrets_config_names_nodup rng) p hp,
          mutations_for_process_absent cfg.project_id o p.1 p.2 hg (hc p.1) (ha p.1)]
  · intro hall
    have hfull : (secrets_config rng).filter (fun p => !o.getOk p.1) = secrets_config rng := by
      rw [List.filter_eq_self]
      intro a haa
      simp [hall a haa]
    rw [hA, hfull]
    exact ⟨rfl, rfl⟩

/-- C1 witness: on a store where none of the five secrets exist and every
call succeeds, the returned mapping has size 5. -/
theorem create_secrets_creates_or_skips_witness :
    (create_secrets demoConfig oracleAllAbsent demoRng).2.length = 5 :=
  ((create_secrets_creates_or_skips demoConfig oracleAllAbsent demoRng
      (fun _ => rfl) (fun _ => rfl)).2.2 (fun _ _ => rfl)).1

lemma process_secret_get_filter (pid : String) (o : SecretStoreOracle)
    (name value : String) :
    (process_secret pid o name value).1.filter SecretEvent.isGet
      = [SecretEvent.getSecret pid name] := by
  by_cases hg : o.getOk name
  · simp [process_secret, hg, SecretEvent.isGet]
  · by_cases hcr : o.createOk name
    · by_cases ha : o.addOk name <;>
        simp [process_secret, hg, hcr, ha, SecretEvent.isGet]
    · simp [process_secret, hg, hcr, SecretEvent.isGet]

lemma run_secret_loop_gets (pid : String) (o : SecretStoreOracle)
    (l : List (String × String)) :
    (run_secret_loop pid o l).1.filter SecretEvent.isGet
      = l.map fun p => SecretEvent.getSecret pid p.1 := by
  induction l with
  | nil => rfl
  | cons p rest ih =>
      rw [run_secret_loop_trace_cons, List.filter_append,
        process_secret_get_filter pid o p.1 p.2, ih, List.map_cons, List.singleton_append]

lemma logError_mem_create_fail (pid : String) (o : SecretStoreOracle)
    (name value : String) (hg : o.getOk name = false) (hcr : o.createOk name = false) :
    SecretEvent.logError name ∈ (process_secret pid o name value).1 := by
  simp [process_secret, hg, hcr]

lemma logError_mem_add_fail (pid : String) (o : SecretStoreOracle)
    (name value : String) (hg : o.getOk name = false) (hcr : o.createOk name = true)
    (ha : o.addOk name = false) :
    SecretEvent.logError name ∈ (process_secret pid o name value).1 := by
  simp [process_secret, hg, hcr, ha]

/-- C4: whatever the secret store does, every one of the five required
secrets is attempted: the trace holds one existence check per name, in
order, so a failure on one name never aborts the later names; when the
creation or the version add of a name fails, the failure is caught and
logged for that name, and `create_secrets` still returns (it is a total
function, mirroring the per-item try/except). -/
theorem create_secrets_best_effort (cfg : GCPConfig) (o : SecretStoreOracle)
    (rng : Nat → Fin alphabet.length) :
    (create_secrets cfg o rng).1.filter SecretEvent.isGet
      = (secrets_config rng).map (fun p => SecretEvent.getSecret cfg.project_id p.1)
    ∧ (∀ p ∈ secrets_config rng, o.getOk p.1 = false → o.createOk p.1 = false →
        SecretEvent.logError p.1 ∈ (create_secrets cfg o rng).1)
    ∧ (∀ p ∈ secrets_config rng, o.getOk p.1 = false → o.createOk p.1 = true →
        o.addOk p.1 = false →
        SecretEvent.logError p.1 ∈ (create_secrets cfg o rng).1) := by
  refine ⟨run_secret_loop_gets cfg.project_id o (secrets_config rng), ?_, ?_⟩
  · intro p hp hg hcr
    exact mem_run_secret_loop_of_mem cfg.project_id o (secrets_config rng) p hp _
      (logError_mem_create_fail cfg.project_id o p.1 p.2 hg hcr)
  · intro p hp hg hcr ha
    exact mem_run_secret_loop_of_mem cfg.project_id o (secrets_config rng) p hp _
      (logError_mem_add_fail cfg.project_id o p.1 p.2 hg hcr ha)

/-- C4 witness: on a store where every creation fails, the error of the
email secret is logged, and the run still attempted it. -/
theorem create_secrets_best_effort_witness :
    SecretEvent.logError "qitlalli-email-password"
      ∈ (create_secrets demoConfig oracleAllFail demoRng).1 :=
  (create_secrets_best_effort demoConfig oracleAllFail demoRng).2.1
    ("qitlalli-email-password", "PLACEHOLDER-UPDATE-MANUALLY")
    (by simp [secrets_config]) rfl rfl

/-- C10: the region field never influences observable behaviour: two
configs differing only in the region produce the same secret-store
interaction and returned mapping, the same build request (hence image
tag), the same service URL, the same health-check URL, and the same `main`
run for every action and world. -/
theorem region_noninterference (c c' : GCPConfig) (rng : Nat → Fin alphabet.length)
    (hp : c.project_id = c'.project_id) (hs : c.service_name = c'.service_name)
    (_hd : c.db_instance_name = c'.db_instance_name)
    (_hacc : c.service_account = c'.service_account) :
    (∀ o, create_secrets c o rng = create_secrets c' o rng)
    ∧ build_config c = build_config c'
    ∧ get_service_url c = get_service_url c'
    ∧ ((get_service_url c).map fun u => u ++ "/web/health")
        = ((get_service_url c').map fun u => u ++ "/web/health")
    ∧ (∀ act w, run_main c act w = run_main c' act w) := by
  have hu : get_service_url c = get_service_url c' := by
    simp [get_service_url, hp, hs]
  refine ⟨fun o => by simp [create_secrets, hp], ?_, hu, by rw [hu], fun act w => ?_⟩
  · simp [build_config, image_tag, hp, hs]
  · simp only [run_main, hu]

/-- C10 witness: two concrete configs differing only in the region submit
the same build request. -/
theorem region_noninterference_witness :
    build_config demoConfig = build_config demoConfigB :=
  (region_noninterference demoConfig demoConfigB demoRng rfl rfl rfl rfl).2.1

end Qitlalli
